import Mathlib

/-!
Shallow embedding of `internal/plugin/loopback/testing_grpc_stream.go`.

The Go file mocks the two streaming RPCs of the storage-plugin service:
`GetObject` (server-streaming download) and `PutObject` (client-streaming
upload).  Each mock stream is a pair of unbuffered Go channels plus
mutex-protected closed flags shared by a client facade and a server facade.

Embedding choices:
- A Go channel is modelled as a FIFO `List` of in-flight messages together
  with the guard's `closed : Bool` flag; a send appends to the queue, a
  receive pops the head.  This is the sequential linearisation of the
  unbuffered hand-off: the queue holds messages whose hand-off has been
  initiated but not yet consumed.
- A receive on an empty open channel blocks in Go; here it returns the
  explicit outcome `recvResult.blocked` and leaves the state unchanged.
- Go errors made by `fmt.Errorf` are modelled by the `GoError` inductive,
  one constructor per distinct error message in the source; `io.EOF` is
  `GoError.ioEOF`; arbitrary application errors carried as payloads are
  `GoError.appErr`.
- The protobuf payload messages are opaque one-field structures; a Go
  pointer that may be nil is `Option`.
- Each facade method is a function from the shared stream state to a
  result paired with the updated state.
-/

/-- Go `error` values occurring in the source, one constructor per
distinct `fmt.Errorf` message, plus `io.EOF` and opaque application
errors. -/
inductive GoError where
  | ioEOF : GoError
  | streamClosedErr : GoError
  | nilArg (param : String) : GoError
  | invalidArgument : GoError
  | appErr (code : Nat) : GoError
deriving DecidableEq

/-- Opaque stand-in for `plgpb.GetObjectResponse` (a protobuf message
carrying a file chunk); the content is uninterpreted. -/
structure GetObjectResponse where
  fileChunk : Nat
deriving DecidableEq

/-- Opaque stand-in for `plgpb.PutObjectRequest`. -/
structure PutObjectRequest where
  fileChunk : Nat
deriving DecidableEq

/-- Opaque stand-in for `plgpb.PutObjectResponse`. -/
structure PutObjectResponse where
  checksumSha256 : Nat
deriving DecidableEq

/-- `getObjectStreamResponse`: a message on the GetObject channel, with a
possibly-nil payload pointer and a possibly-nil error. -/
structure getObjectStreamResponse where
  msg : Option GetObjectResponse
  err : Option GoError
deriving DecidableEq

/-- Shared state of a `getObjectStream`: the `messages` channel (FIFO
queue of in-flight messages) and the mutex-protected `streamClosed`
flag. -/
structure getObjectStream where
  messages : List getObjectStreamResponse
  streamClosed : Bool
deriving DecidableEq

/-- `getObjectStream.IsStreamClosed`. -/
def getObjectStream.IsStreamClosed (s : getObjectStream) : Bool :=
  s.streamClosed

/-- `getObjectStream.Close`: if the flag is already set, return; otherwise
close the channel and set the flag. -/
def getObjectStream.Close (s : getObjectStream) : getObjectStream :=
  if s.streamClosed then s else { s with streamClosed := true }

/-- `newGetObjectStream`: fresh stream, empty channel, open. -/
def newGetObjectStream : getObjectStream :=
  { messages := [], streamClosed := false }

/-- Outcome of a channel receive: either the caller would block (empty
open channel), or it returns a `(msg, err)` pair (`ret none (some ioEOF)`
is the closed-channel end-of-stream sentinel). -/
inductive recvResult (α : Type) where
  | blocked : recvResult α
  | ret (msg : Option α) (err : Option GoError) : recvResult α
deriving DecidableEq

/-- `getObjectClient.Recv`: pop the next in-flight message; on a closed
empty channel `ok` is false and the result is `(nil, io.EOF)`; on an open
empty channel the caller blocks. -/
def getObjectClient.Recv (s : getObjectStream) :
    recvResult GetObjectResponse × getObjectStream :=
  match s.messages with
  | r :: rest => (.ret r.msg r.err, { s with messages := rest })
  | [] =>
    if s.streamClosed then (.ret none (some .ioEOF), s)
    else (.blocked, s)

/-- `getObjectClient.CloseSend`: error if the stream is already closed,
otherwise close it and return nil. -/
def getObjectClient.CloseSend (s : getObjectStream) :
    Option GoError × getObjectStream :=
  if s.IsStreamClosed then (some .streamClosedErr, s)
  else (none, s.Close)

/-- `getObjectServer.Send`: nil-payload check first, then closed check,
then hand the message to the channel. -/
def getObjectServer.Send (resp : Option GetObjectResponse)
    (s : getObjectStream) : Option GoError × getObjectStream :=
  match resp with
  | none => (some (.nilArg "resp GetObjectResponse"), s)
  | some r =>
    if s.IsStreamClosed then (some .streamClosedErr, s)
    else (none, { s with messages := s.messages ++ [⟨some r, none⟩] })

/-- A value passed to a GetObject `SendMsg(m interface\x7b\x7d)` escape
hatch, as seen by the Go type switch: a (possibly nil) typed payload
pointer, an error value, or anything else. -/
inductive getMsg where
  | resp (r : Option GetObjectResponse) : getMsg
  | err (e : GoError) : getMsg
  | other : getMsg
deriving DecidableEq

/-- `getObjectServer.SendMsg`: type switch.  A `*GetObjectResponse`
(including a typed nil pointer, which the switch also matches) is sent if
the stream is open; an error value is sent and then the stream is closed
(deferred `closeStream`); anything else is an invalid argument. -/
def getObjectServer.SendMsg (m : getMsg) (s : getObjectStream) :
    Option GoError × getObjectStream :=
  match m with
  | .resp msg =>
    if s.IsStreamClosed then (some .streamClosedErr, s)
    else (none, { s with messages := s.messages ++ [⟨msg, none⟩] })
  | .err msg =>
    if s.IsStreamClosed then (some .streamClosedErr, s)
    else (none, getObjectStream.Close
      { s with messages := s.messages ++ [⟨none, some msg⟩] })
  | .other => (some .invalidArgument, s)

/-- `getObjectClient.SendMsg`: stub, always returns nil. -/
def getObjectClient.SendMsg (_m : getMsg) (s : getObjectStream) :
    Option GoError × getObjectStream :=
  (none, s)

/-- `getObjectClient.RecvMsg`: stub, always returns nil. -/
def getObjectClient.RecvMsg (_m : getMsg) (s : getObjectStream) :
    Option GoError × getObjectStream :=
  (none, s)

/-- `getObjectServer.RecvMsg`: stub, always returns nil. -/
def getObjectServer.RecvMsg (_m : getMsg) (s : getObjectStream) :
    Option GoError × getObjectStream :=
  (none, s)

/-- `putObjectStreamRequest`: a message on the PutObject request channel. -/
structure putObjectStreamRequest where
  msg : Option PutObjectRequest
  err : Option GoError
deriving DecidableEq

/-- `putObjectStreamResponse`: a message on the PutObject response channel. -/
structure putObjectStreamResponse where
  msg : Option PutObjectResponse
  err : Option GoError
deriving DecidableEq

/-- Shared state of a `putObjectStream`: the `requests` and `responses`
channels and the independent `clientClosed` / `serverClosed` flags, all
behind one mutex. -/
structure putObjectStream where
  requests : List putObjectStreamRequest
  responses : List putObjectStreamResponse
  clientClosed : Bool
  serverClosed : Bool
deriving DecidableEq

/-- `putObjectStream.CloseClient`: idempotent close of the requests
channel. -/
def putObjectStream.CloseClient (s : putObjectStream) : putObjectStream :=
  if s.clientClosed then s else { s with clientClosed := true }

/-- `putObjectStream.IsClientClosed`. -/
def putObjectStream.IsClientClosed (s : putObjectStream) : Bool :=
  s.clientClosed

/-- `putObjectStream.CloseServer`: idempotent close of the responses
channel. -/
def putObjectStream.CloseServer (s : putObjectStream) : putObjectStream :=
  if s.serverClosed then s else { s with serverClosed := true }

/-- `putObjectStream.IsServerClosed`. -/
def putObjectStream.IsServerClosed (s : putObjectStream) : Bool :=
  s.serverClosed

/-- `newPutObjectStream`: fresh stream, both channels empty and open. -/
def newPutObjectStream : putObjectStream :=
  { requests := [], responses := [], clientClosed := false,
    serverClosed := false }

/-- `putObjectClient.Send`: nil-request check first, then the client
(request-half) closed check, then hand the message to the requests
channel. -/
def putObjectClient.Send (req : Option PutObjectRequest)
    (s : putObjectStream) : Option GoError × putObjectStream :=
  match req with
  | none => (some (.nilArg "req PutObjectRequest"), s)
  | some r =>
    if s.IsClientClosed then (some .streamClosedErr, s)
    else (none, { s with requests := s.requests ++ [⟨some r, none⟩] })

/-- The receive on the responses channel performed by
`putObjectClient.CloseAndRecv` after the close (the
`resp, ok := <-c.sentFromServer` block of lines 330-334). -/
def putResponseRecv (s : putObjectStream) :
    recvResult PutObjectResponse × putObjectStream :=
  match s.responses with
  | r :: rest => (.ret r.msg r.err, { s with responses := rest })
  | [] =>
    if s.serverClosed then (.ret none (some .ioEOF), s)
    else (.blocked, s)

/-- `putObjectClient.CloseAndRecv`: unconditionally close the request
half (idempotent `CloseClient`), then block for the next message on the
responses channel. -/
def putObjectClient.CloseAndRecv (s : putObjectStream) :
    recvResult PutObjectResponse × putObjectStream :=
  putResponseRecv s.CloseClient

/-- `putObjectClient.CloseSend`: error if the request half is already
closed, otherwise close it and return nil. -/
def putObjectClient.CloseSend (s : putObjectStream) :
    Option GoError × putObjectStream :=
  if s.IsClientClosed then (some .streamClosedErr, s)
  else (none, s.CloseClient)

/-- `putObjectServer.SendAndClose`: nil-response check first, then the
server (response-half) closed check, then deliver the terminal response
and close the response half. -/
def putObjectServer.SendAndClose (resp : Option PutObjectResponse)
    (s : putObjectStream) : Option GoError × putObjectStream :=
  match resp with
  | none => (some (.nilArg "resp PutObjectResponse"), s)
  | some r =>
    if s.IsServerClosed then (some .streamClosedErr, s)
    else (none, putObjectStream.CloseServer
      { s with responses := s.responses ++ [⟨some r, none⟩] })

/-- `putObjectServer.Recv`: pop the next in-flight request; on a closed
empty requests channel return `(nil, io.EOF)`; on an open empty channel
the caller blocks. -/
def putObjectServer.Recv (s : putObjectStream) :
    recvResult PutObjectRequest × putObjectStream :=
  match s.requests with
  | r :: rest => (.ret r.msg r.err, { s with requests := rest })
  | [] =>
    if s.clientClosed then (.ret none (some .ioEOF), s)
    else (.blocked, s)

/-- A value passed to a PutObject `SendMsg` escape hatch, as seen by the
Go type switch. -/
inductive putMsg where
  | resp (r : Option PutObjectResponse) : putMsg
  | err (e : GoError) : putMsg
  | other : putMsg
deriving DecidableEq

/-- `putObjectServer.SendMsg`: type switch.  A `*PutObjectResponse`
(including a typed nil pointer) is sent if the response half is open; an
error value is sent and then the response half is closed (deferred
`closeStream`); anything else is an invalid argument. -/
def putObjectServer.SendMsg (m : putMsg) (s : putObjectStream) :
    Option GoError × putObjectStream :=
  match m with
  | .resp msg =>
    if s.IsServerClosed then (some .streamClosedErr, s)
    else (none, { s with responses := s.responses ++ [⟨msg, none⟩] })
  | .err msg =>
    if s.IsServerClosed then (some .streamClosedErr, s)
    else (none, putObjectStream.CloseServer
      { s with responses := s.responses ++ [⟨none, some msg⟩] })
  | .other => (some .invalidArgument, s)

/-- `putObjectClient.SendMsg`: stub, always returns nil. -/
def putObjectClient.SendMsg (_m : putMsg) (s : putObjectStream) :
    Option GoError × putObjectStream :=
  (none, s)

/-- `putObjectClient.RecvMsg`: stub, always returns nil. -/
def putObjectClient.RecvMsg (_m : putMsg) (s : putObjectStream) :
    Option GoError × putObjectStream :=
  (none, s)

/-- `putObjectServer.RecvMsg`: stub, always returns nil. -/
def putObjectServer.RecvMsg (_m : putMsg) (s : putObjectStream) :
    Option GoError × putObjectStream :=
  (none, s)

/-- Modelled from the spec: `Producer.SendError(err)` of section 4.2
is not a separate function in the source (only the `SendMsg` error
branch realises it); per the spec it "delivers a terminal error message
then unconditionally closes the stream afterward" and "fails with
`AlreadyClosed` if already closed before the attempt". -/
def getObjectSendErrorSpec (e : GoError) (s : getObjectStream) :
    Option GoError × getObjectStream :=
  if s.IsStreamClosed then (some .streamClosedErr, s)
  else (none, getObjectStream.Close
    { s with messages := s.messages ++ [⟨none, some e⟩] })

/-- Modelled from the spec: `Sender.CompleteWithError(err)` of section
4.3 is not a separate function in the source (only the PutObject
`SendMsg` error branch realises it); per the spec it "delivers a
terminal error on the response half and closes it, same idempotency rule
as 4.2's `SendError`". -/
def putObjectSendErrorSpec (e : GoError) (s : putObjectStream) :
    Option GoError × putObjectStream :=
  if s.IsServerClosed then (some .streamClosedErr, s)
  else (none, putObjectStream.CloseServer
    { s with responses := s.responses ++ [⟨none, some e⟩] })

/-- Fold of `getObjectServer.Send` over a list of payloads, stopping at
the first error (models a producer loop that checks each Send result). -/
def getObjectServer.sendAll (ps : List GetObjectResponse)
    (s : getObjectStream) : Option GoError × getObjectStream :=
  match ps with
  | [] => (none, s)
  | p :: rest =>
    match getObjectServer.Send (some p) s with
    | (none, s1) => getObjectServer.sendAll rest s1
    | (some e, s1) => (some e, s1)

/-- The results of `n` consecutive `getObjectClient.Recv` calls. -/
def getObjectRecvTrace : Nat → getObjectStream →
    List (recvResult GetObjectResponse)
  | 0, _ => []
  | n + 1, s =>
    (getObjectClient.Recv s).1 ::
      getObjectRecvTrace n (getObjectClient.Recv s).2

/-- The result of the `(n+1)`-st consecutive `getObjectClient.Recv`
call. -/
def getObjectRecvIter : Nat → getObjectStream →
    recvResult GetObjectResponse × getObjectStream
  | 0, s => getObjectClient.Recv s
  | n + 1, s => getObjectRecvIter n (getObjectClient.Recv s).2

/-- The result of the `(n+1)`-st consecutive receive on the PutObject
responses channel. -/
def putResponseRecvIter : Nat → putObjectStream →
    recvResult PutObjectResponse × putObjectStream
  | 0, s => putResponseRecv s
  | n + 1, s => putResponseRecvIter n (putResponseRecv s).2

/-! Helper lemmas about the close guards and iterated receives. -/

theorem getObjectStream.Close_streamClosed (s : getObjectStream) :
    s.Close.streamClosed = true := by
  by_cases h : s.streamClosed <;> simp [getObjectStream.Close, h]

theorem getObjectStream.Close_idem (s : getObjectStream) :
    s.Close.Close = s.Close := by
  by_cases h : s.streamClosed <;> simp [getObjectStream.Close, h]

theorem getObjectStream.Close_of_closed (s : getObjectStream)
    (h : s.streamClosed = true) : s.Close = s := by
  simp [getObjectStream.Close, h]

theorem getObjectStream.Close_iterate (n : Nat) (s : getObjectStream) :
    Nat.iterate getObjectStream.Close (n + 1) s = s.Close := by
  induction n generalizing s with
  | zero => rfl
  | succ k ih =>
    show Nat.iterate getObjectStream.Close (k + 1) s.Close = s.Close
    rw [ih s.Close, getObjectStream.Close_idem]

theorem putObjectStream.CloseClient_clientClosed (s : putObjectStream) :
    s.CloseClient.clientClosed = true := by
  by_cases h : s.clientClosed <;> simp [putObjectStream.CloseClient, h]

theorem putObjectStream.CloseClient_idem (s : putObjectStream) :
    s.CloseClient.CloseClient = s.CloseClient := by
  by_cases h : s.clientClosed <;> simp [putObjectStream.CloseClient, h]

theorem putObjectStream.CloseClient_of_closed (s : putObjectStream)
    (h : s.clientClosed = true) : s.CloseClient = s := by
  simp [putObjectStream.CloseClient, h]

theorem putObjectStream.CloseClient_iterate (n : Nat) (s : putObjectStream) :
    Nat.iterate putObjectStream.CloseClient (n + 1) s = s.CloseClient := by
  induction n generalizing s with
  | zero => rfl
  | succ k ih =>
    show Nat.iterate putObjectStream.CloseClient (k + 1) s.CloseClient
      = s.CloseClient
    rw [ih s.CloseClient, putObjectStream.CloseClient_idem]

theorem putObjectStream.CloseServer_serverClosed (s : putObjectStream) :
    s.CloseServer.serverClosed = true := by
  by_cases h : s.serverClosed <;> simp [putObjectStream.CloseServer, h]

theorem putObjectStream.CloseServer_idem (s : putObjectStream) :
    s.CloseServer.CloseServer = s.CloseServer := by
  by_cases h : s.serverClosed <;> simp [putObjectStream.CloseServer, h]

theorem putObjectStream.CloseServer_iterate (n : Nat) (s : putObjectStream) :
    Nat.iterate putObjectStream.CloseServer (n + 1) s = s.CloseServer := by
  induction n generalizing s with
  | zero => rfl
  | succ k ih =>
    show Nat.iterate putObjectStream.CloseServer (k + 1) s.CloseServer
      = s.CloseServer
    rw [ih s.CloseServer, putObjectStream.CloseServer_idem]

theorem getObjectClient.Recv_streamClosed (s : getObjectStream) :
    ((getObjectClient.Recv s).2).streamClosed = s.streamClosed := by
  unfold getObjectClient.Recv
  match h : s.messages with
  | r :: rest => simp
  | [] => by_cases hc : s.streamClosed <;> simp [hc]

theorem getObjectClient.Recv_not_blocked (s : getObjectStream)
    (h : s.streamClosed = true) :
    (getObjectClient.Recv s).1 ≠ .blocked := by
  unfold getObjectClient.Recv
  match hm : s.messages with
  | r :: rest => simp
  | [] => simp [h]

theorem getObjectRecvIter_not_blocked (n : Nat) (s : getObjectStream)
    (h : s.streamClosed = true) :
    (getObjectRecvIter n s).1 ≠ .blocked := by
  induction n generalizing s with
  | zero => exact getObjectClient.Recv_not_blocked s h
  | succ k ih =>
    show (getObjectRecvIter k (getObjectClient.Recv s).2).1 ≠ .blocked
    exact ih _ (by rw [getObjectClient.Recv_streamClosed, h])

theorem getObjectRecvIter_eof (n : Nat) (s : getObjectStream)
    (h : s.streamClosed = true) (hn : s.messages.length ≤ n) :
    (getObjectRecvIter n s).1 = .ret none (some .ioEOF) := by
  induction n generalizing s with
  | zero =>
    have hm : s.messages = [] := List.length_eq_zero.mp (Nat.le_zero.mp hn)
    show (getObjectClient.Recv s).1 = _
    simp [getObjectClient.Recv, hm, h]
  | succ k ih =>
    show (getObjectRecvIter k (getObjectClient.Recv s).2).1 = _
    match hm : s.messages with
    | [] =>
      have : getObjectClient.Recv s = (.ret none (some .ioEOF), s) := by
        simp [getObjectClient.Recv, hm, h]
      rw [this]
      exact ih s h (by simp [hm])
    | r :: rest =>
      have : (getObjectClient.Recv s).2 = { s with messages := rest } := by
        simp [getObjectClient.Recv, hm]
      rw [this]
      refine ih _ h ?_
      have := hn
      simp [hm] at this
      simpa using this

theorem putResponseRecv_serverClosed (s : putObjectStream) :
    ((putResponseRecv s).2).serverClosed = s.serverClosed := by
  unfold putResponseRecv
  match h : s.responses with
  | r :: rest => simp
  | [] => by_cases hc : s.serverClosed <;> simp [hc]

theorem putResponseRecv_not_blocked (s : putObjectStream)
    (h : s.serverClosed = true) :
    (putResponseRecv s).1 ≠ .blocked := by
  unfold putResponseRecv
  match hm : s.responses with
  | r :: rest => simp
  | [] => simp [h]

theorem putResponseRecvIter_not_blocked (n : Nat) (s : putObjectStream)
    (h : s.serverClosed = true) :
    (putResponseRecvIter n s).1 ≠ .blocked := by
  induction n generalizing s with
  | zero => exact putResponseRecv_not_blocked s h
  | succ k ih =>
    show (putResponseRecvIter k (putResponseRecv s).2).1 ≠ .blocked
    exact ih _ (by rw [putResponseRecv_serverClosed, h])

theorem putResponseRecvIter_eof (n : Nat) (s : putObjectStream)
    (h : s.serverClosed = true) (hn : s.responses.length ≤ n) :
    (putResponseRecvIter n s).1 = .ret none (some .ioEOF) := by
  induction n generalizing s with
  | zero =>
    have hm : s.responses = [] := List.length_eq_zero.mp (Nat.le_zero.mp hn)
    show (putResponseRecv s).1 = _
    simp [putResponseRecv, hm, h]
  | succ k ih =>
    show (putResponseRecvIter k (putResponseRecv s).2).1 = _
    match hm : s.responses with
    | [] =>
      have : putResponseRecv s = (.ret none (some .ioEOF), s) := by
        simp [putResponseRecv, hm, h]
      rw [this]
      exact ih s h (by simp [hm])
    | r :: rest =>
      have : (putResponseRecv s).2 = { s with responses := rest } := by
        simp [putResponseRecv, hm]
      rw [this]
      refine ih _ h ?_
      have := hn
      simp [hm] at this
      simpa using this

theorem getObjectServer.sendAll_open (ps : List GetObjectResponse)
    (s : getObjectStream) (h : s.streamClosed = false) :
    getObjectServer.sendAll ps s =
      (none, { s with messages :=
        s.messages ++ ps.map (fun p => ⟨some p, none⟩) }) := by
  induction ps generalizing s with
  | nil => simp [getObjectServer.sendAll]
  | cons p rest ih =>
    have hsend : getObjectServer.Send (some p) s =
        (none, { s with messages := s.messages ++ [⟨some p, none⟩] }) := by
      simp [getObjectServer.Send, getObjectStream.IsStreamClosed, h]
    show (match getObjectServer.Send (some p) s with
      | (none, s1) => getObjectServer.sendAll rest s1
      | (some e, s1) => (some e, s1)) = _
    rw [hsend]
    dsimp only
    rw [ih { s with messages := s.messages ++ [⟨some p, none⟩] } h]
    simp

theorem getObjectRecvTrace_closed (l : List getObjectStreamResponse)
    (s : getObjectStream) (hc : s.streamClosed = true)
    (hm : s.messages = l) :
    getObjectRecvTrace (l.length + 1) s =
      l.map (fun r => recvResult.ret r.msg r.err) ++
        [recvResult.ret none (some .ioEOF)] := by
  induction l generalizing s with
  | nil =>
    show (getObjectClient.Recv s).1 ::
      getObjectRecvTrace 0 (getObjectClient.Recv s).2 = _
    simp [getObjectClient.Recv, hm, hc, getObjectRecvTrace]
  | cons r rest ih =>
    have hrecv : getObjectClient.Recv s =
        (.ret r.msg r.err, { s with messages := rest }) := by
      simp [getObjectClient.Recv, hm]
    show (getObjectClient.Recv s).1 ::
      getObjectRecvTrace (rest.length + 1) (getObjectClient.Recv s).2 = _
    rw [hrecv]
    rw [ih { s with messages := rest } hc rfl]
    simp

theorem getObjectStream.Close_eq (s : getObjectStream) :
    s.Close = { s with streamClosed := true } := by
  cases s with
  | mk m c => cases c <;> simp [getObjectStream.Close]

theorem putObjectStream.CloseClient_eq (s : putObjectStream) :
    s.CloseClient = { s with clientClosed := true } := by
  cases s with
  | mk rq rs c v => cases c <;> simp [putObjectStream.CloseClient]

theorem putObjectStream.CloseServer_eq (s : putObjectStream) :
    s.CloseServer = { s with serverClosed := true } := by
  cases s with
  | mk rq rs c v => cases v <;> simp [putObjectStream.CloseServer]

/-- Claim C2: for every stream half (download stream, upload request
half, upload response half), invoking the close operation any number of
times closes the channel exactly once: every invocation after the first
is a no-op leaving the state unchanged, and the corresponding
IsStreamClosed / IsClientClosed / IsServerClosed query returns true for
every caller afterward. -/
theorem claim2_close_idempotent (s : getObjectStream) (p : putObjectStream)
    (n : Nat) :
    s.Close.IsStreamClosed = true ∧
    Nat.iterate getObjectStream.Close (n + 1) s = s.Close ∧
    p.CloseClient.IsClientClosed = true ∧
    Nat.iterate putObjectStream.CloseClient (n + 1) p = p.CloseClient ∧
    p.CloseServer.IsServerClosed = true ∧
    Nat.iterate putObjectStream.CloseServer (n + 1) p = p.CloseServer :=
  ⟨getObjectStream.Close_streamClosed s,
   getObjectStream.Close_iterate n s,
   putObjectStream.CloseClient_clientClosed p,
   putObjectStream.CloseClient_iterate n p,
   putObjectStream.CloseServer_serverClosed p,
   putObjectStream.CloseServer_iterate n p⟩

/-- Claim C7: in every stream state, calling the typed send operations
with a nil payload (download `Send`, upload client `Send`, upload server
`SendAndClose`) fails with the InvalidArgument condition (the
"cannot be nil" error) and leaves the stream state entirely unchanged:
no closed flag flips and no message is enqueued on any channel. -/
theorem claim7_nil_payload_invalid (s : getObjectStream)
    (p : putObjectStream) :
    getObjectServer.Send none s
      = (some (.nilArg "resp GetObjectResponse"), s) ∧
    putObjectClient.Send none p
      = (some (.nilArg "req PutObjectRequest"), p) ∧
    putObjectServer.SendAndClose none p
      = (some (.nilArg "resp PutObjectResponse"), p) :=
  ⟨rfl, rfl, rfl⟩

/-- Claim C6: every payload-delivering operation (download
`getObjectServer.Send`, upload `putObjectClient.Send`, upload
`putObjectServer.SendAndClose`) invoked with a non-nil payload on a half
that is already closed fails synchronously with the AlreadyClosed
condition ("stream is closed"), enqueues nothing and leaves the state
unchanged (in particular it does not block: the result is returned
immediately). -/
theorem claim6_send_on_closed (s : getObjectStream) (p : putObjectStream)
    (r : GetObjectResponse) (q : PutObjectRequest) (v : PutObjectResponse) :
    (s.streamClosed = true →
      getObjectServer.Send (some r) s = (some .streamClosedErr, s)) ∧
    (p.clientClosed = true →
      putObjectClient.Send (some q) p = (some .streamClosedErr, p)) ∧
    (p.serverClosed = true →
      putObjectServer.SendAndClose (some v) p = (some .streamClosedErr, p)) := by
  refine ⟨fun h => ?_, fun h => ?_, fun h => ?_⟩ <;>
    simp [getObjectServer.Send, putObjectClient.Send,
      putObjectServer.SendAndClose, getObjectStream.IsStreamClosed,
      putObjectStream.IsClientClosed, putObjectStream.IsServerClosed, h]

/-- Witness for claim C6 at a concrete fully-closed stream pair. -/
theorem claim6_witness :
    getObjectServer.Send (some ⟨0⟩)
        { messages := [], streamClosed := true }
      = (some .streamClosedErr, { messages := [], streamClosed := true }) ∧
    putObjectClient.Send (some ⟨0⟩)
        { requests := [], responses := [], clientClosed := true,
          serverClosed := true }
      = (some .streamClosedErr,
        { requests := [], responses := [], clientClosed := true,
          serverClosed := true }) ∧
    putObjectServer.SendAndClose (some ⟨0⟩)
        { requests := [], responses := [], clientClosed := true,
          serverClosed := true }
      = (some .streamClosedErr,
        { requests := [], responses := [], clientClosed := true,
          serverClosed := true }) :=
  ⟨(claim6_send_on_closed { messages := [], streamClosed := true }
      { requests := [], responses := [], clientClosed := true,
        serverClosed := true } ⟨0⟩ ⟨0⟩ ⟨0⟩).1 rfl,
   (claim6_send_on_closed { messages := [], streamClosed := true }
      { requests := [], responses := [], clientClosed := true,
        serverClosed := true } ⟨0⟩ ⟨0⟩ ⟨0⟩).2.1 rfl,
   (claim6_send_on_closed { messages := [], streamClosed := true }
      { requests := [], responses := [], clientClosed := true,
        serverClosed := true } ⟨0⟩ ⟨0⟩ ⟨0⟩).2.2 rfl⟩

/-- Claim C4: for every finite sequence of non-nil payloads pushed on a
fresh download stream by the producer's `Send`, followed by the producer
closing the stream without an error, the consumer calling `Recv`
repeatedly receives exactly those payloads in send order (FIFO, no
reordering, no duplication), each with a nil error, and then observes the
end-of-stream sentinel `(nil, io.EOF)` exactly once as the next
observation; no error and no earlier sentinel ever surfaces in the
trace. -/
theorem claim4_download_fifo (ps : List GetObjectResponse) :
    (getObjectServer.sendAll ps newGetObjectStream).1 = none ∧
    getObjectRecvTrace (ps.length + 1)
        ((getObjectServer.sendAll ps newGetObjectStream).2.Close) =
      ps.map (fun p => recvResult.ret (some p) none) ++
        [recvResult.ret none (some .ioEOF)] := by
  have hs := getObjectServer.sendAll_open ps newGetObjectStream rfl
  refine ⟨by rw [hs], ?_⟩
  rw [hs]
  simp only [newGetObjectStream, List.nil_append]
  rw [getObjectStream.Close_eq]
  have htr := getObjectRecvTrace_closed
    (List.map (fun p => (⟨some p, none⟩ : getObjectStreamResponse)) ps)
    { messages :=
        List.map (fun p => (⟨some p, none⟩ : getObjectStreamResponse)) ps,
      streamClosed := true } rfl rfl
  rw [List.length_map] at htr
  rw [htr]
  simp [List.map_map, Function.comp]

/-- Claim C3: on either stream type, whenever a send of an error message
through the generic `SendMsg` path returns success, the half that
carried it is closed immediately afterwards: the next closed-state query
returns true, and once the in-flight messages (the delivered error
included) have been consumed, every subsequent receive on that half
observes the end-of-stream sentinel `(nil, io.EOF)`; no receive on the
closed half ever blocks. -/
theorem claim3_error_send_closes (e : GoError) (s t : getObjectStream)
    (p u : putObjectStream)
    (hg : getObjectServer.SendMsg (.err e) s = (none, t))
    (hp : putObjectServer.SendMsg (.err e) p = (none, u)) :
    t.IsStreamClosed = true ∧
    (∀ n, (getObjectRecvIter n t).1 ≠ .blocked) ∧
    (∀ n, t.messages.length ≤ n →
      (getObjectRecvIter n t).1 = .ret none (some .ioEOF)) ∧
    u.IsServerClosed = true ∧
    (∀ n, (putResponseRecvIter n u).1 ≠ .blocked) ∧
    (∀ n, u.responses.length ≤ n →
      (putResponseRecvIter n u).1 = .ret none (some .ioEOF)) := by
  have ht : t.streamClosed = true := by
    by_cases hc : s.streamClosed
    · simp [getObjectServer.SendMsg, getObjectStream.IsStreamClosed,
        hc] at hg
    · simp [getObjectServer.SendMsg, getObjectStream.IsStreamClosed,
        hc, getObjectStream.Close_eq] at hg
      rw [← hg]
  have hu : u.serverClosed = true := by
    by_cases hc : p.serverClosed
    · simp [putObjectServer.SendMsg, putObjectStream.IsServerClosed,
        hc] at hp
    · simp [putObjectServer.SendMsg, putObjectStream.IsServerClosed,
        hc, putObjectStream.CloseServer_eq] at hp
      rw [← hp]
  exact ⟨ht,
    fun n => getObjectRecvIter_not_blocked n t ht,
    fun n hn => getObjectRecvIter_eof n t ht hn,
    hu,
    fun n => putResponseRecvIter_not_blocked n u hu,
    fun n hn => putResponseRecvIter_eof n u hu hn⟩

/-- Witness for claim C3: sending the error `appErr 7` through both
generic paths on fresh streams succeeds, closes the halves, and the
second receive (after the error message itself) observes the sentinel. -/
theorem claim3_witness :
    getObjectServer.SendMsg (.err (.appErr 7)) newGetObjectStream
      = (none, { messages := [⟨none, some (.appErr 7)⟩],
                 streamClosed := true }) ∧
    putObjectServer.SendMsg (.err (.appErr 7)) newPutObjectStream
      = (none, { requests := [], responses := [⟨none, some (.appErr 7)⟩],
                 clientClosed := false, serverClosed := true }) ∧
    ({ messages := [⟨none, some (.appErr 7)⟩], streamClosed := true } :
      getObjectStream).IsStreamClosed = true ∧
    (getObjectRecvIter 1
      { messages := [⟨none, some (.appErr 7)⟩],
        streamClosed := true }).1 = .ret none (some .ioEOF) ∧
    (putResponseRecvIter 1
      { requests := [], responses := [⟨none, some (.appErr 7)⟩],
        clientClosed := false, serverClosed := true }).1
      = .ret none (some .ioEOF) :=
  ⟨by decide, by decide,
   (claim3_error_send_closes (.appErr 7) newGetObjectStream
      { messages := [⟨none, some (.appErr 7)⟩], streamClosed := true }
      newPutObjectStream
      { requests := [], responses := [⟨none, some (.appErr 7)⟩],
        clientClosed := false, serverClosed := true }
      (by decide) (by decide)).1,
   (claim3_error_send_closes (.appErr 7) newGetObjectStream
      { messages := [⟨none, some (.appErr 7)⟩], streamClosed := true }
      newPutObjectStream
      { requests := [], responses := [⟨none, some (.appErr 7)⟩],
        clientClosed := false, serverClosed := true }
      (by decide) (by decide)).2.2.1 1 (by decide),
   (claim3_error_send_closes (.appErr 7) newGetObjectStream
      { messages := [⟨none, some (.appErr 7)⟩], streamClosed := true }
      newPutObjectStream
      { requests := [], responses := [⟨none, some (.appErr 7)⟩],
        clientClosed := false, serverClosed := true }
      (by decide) (by decide)).2.2.2.2.2 1 (by decide)⟩

theorem putResponseRecv_clientClosed (s : putObjectStream) :
    ((putResponseRecv s).2).clientClosed = s.clientClosed := by
  unfold putResponseRecv
  match h : s.responses with
  | r :: rest => simp
  | [] => by_cases hc : s.serverClosed <;> simp [hc]

/-- Claim C5: `CloseAndRecv` first triggers the half-close of the
request side, then blocks for the single terminal message on the
response half: if the server delivered `SendAndClose(R)` it returns
`(R, nil)`, and if the response half is closed without a message having
been delivered it returns the end-of-stream sentinel `(nil, io.EOF)`,
not a carried error. -/
theorem claim5_close_and_recv (s t : putObjectStream)
    (v : PutObjectResponse) :
    ((putObjectClient.CloseAndRecv s).2).IsClientClosed = true ∧
    (s.responses = [] → putObjectServer.SendAndClose (some v) s = (none, t) →
      (putObjectClient.CloseAndRecv t).1 = .ret (some v) none) ∧
    (s.responses = [] → s.serverClosed = true →
      (putObjectClient.CloseAndRecv s).1 = .ret none (some .ioEOF)) := by
  refine ⟨?_, ?_, ?_⟩
  · show ((putResponseRecv s.CloseClient).2).clientClosed = true
    rw [putResponseRecv_clientClosed]
    exact putObjectStream.CloseClient_clientClosed s
  · intro hre hsc
    by_cases hs : s.serverClosed
    · simp [putObjectServer.SendAndClose, putObjectStream.IsServerClosed,
        hs] at hsc
    · simp [putObjectServer.SendAndClose, putObjectStream.IsServerClosed,
        hs, putObjectStream.CloseServer_eq] at hsc
      rw [← hsc]
      simp [putObjectClient.CloseAndRecv, putResponseRecv,
        putObjectStream.CloseClient_eq, hre]
  · intro hre hsv
    simp [putObjectClient.CloseAndRecv, putResponseRecv,
      putObjectStream.CloseClient_eq, hre, hsv]

/-- Witness for claim C5: on a fresh upload stream the server delivers
`SendAndClose ⟨5⟩`; a subsequent `CloseAndRecv` returns that payload
with a nil error, and on a stream whose response half was closed with no
message `CloseAndRecv` returns the sentinel. -/
theorem claim5_witness :
    putObjectServer.SendAndClose (some ⟨5⟩) newPutObjectStream
      = (none, { requests := [], responses := [⟨some ⟨5⟩, none⟩],
                 clientClosed := false, serverClosed := true }) ∧
    (putObjectClient.CloseAndRecv
      { requests := [], responses := [⟨some ⟨5⟩, none⟩],
        clientClosed := false, serverClosed := true }).1
      = .ret (some ⟨5⟩) none ∧
    (putObjectClient.CloseAndRecv
      { requests := [], responses := [],
        clientClosed := false, serverClosed := true }).1
      = .ret none (some .ioEOF) :=
  ⟨by decide,
   (claim5_close_and_recv newPutObjectStream
      { requests := [], responses := [⟨some ⟨5⟩, none⟩],
        clientClosed := false, serverClosed := true } ⟨5⟩).2.1
      rfl (by decide),
   (claim5_close_and_recv
      { requests := [], responses := [],
        clientClosed := false, serverClosed := true }
      { requests := [], responses := [],
        clientClosed := false, serverClosed := true } ⟨5⟩).2.2
      rfl rfl⟩

/-- Claim C8: consumer half-close (`CloseSend` on the download client or
the upload client) fails with the AlreadyClosed condition if the
corresponding half is already closed, and otherwise succeeds (returns
nil) and closes that half, after which a receive on the drained half
observes the end-of-stream sentinel instead of blocking. -/
theorem claim8_close_send (s : getObjectStream) (p : putObjectStream) :
    (s.streamClosed = true →
      getObjectClient.CloseSend s = (some .streamClosedErr, s)) ∧
    (s.streamClosed = false →
      getObjectClient.CloseSend s = (none, { s with streamClosed := true }) ∧
      (s.messages = [] →
        (getObjectClient.Recv { s with streamClosed := true }).1
          = .ret none (some .ioEOF))) ∧
    (p.clientClosed = true →
      putObjectClient.CloseSend p = (some .streamClosedErr, p)) ∧
    (p.clientClosed = false →
      putObjectClient.CloseSend p = (none, { p with clientClosed := true }) ∧
      (p.requests = [] →
        (putObjectServer.Recv { p with clientClosed := true }).1
          = .ret none (some .ioEOF))) := by
  refine ⟨fun h => ?_, fun h => ⟨?_, fun hm => ?_⟩,
    fun h => ?_, fun h => ⟨?_, fun hm => ?_⟩⟩
  · simp [getObjectClient.CloseSend, getObjectStream.IsStreamClosed, h]
  · simp [getObjectClient.CloseSend, getObjectStream.IsStreamClosed, h,
      getObjectStream.Close_eq]
  · simp [getObjectClient.Recv, hm]
  · simp [putObjectClient.CloseSend, putObjectStream.IsClientClosed, h]
  · simp [putObjectClient.CloseSend, putObjectStream.IsClientClosed, h,
      putObjectStream.CloseClient_eq]
  · simp [putObjectServer.Recv, hm]

/-- Witness for claim C8 at a fresh stream (open case) and a closed
stream (AlreadyClosed case) for both stream types. -/
theorem claim8_witness :
    getObjectClient.CloseSend newGetObjectStream
      = (none, { messages := [], streamClosed := true }) ∧
    getObjectClient.CloseSend { messages := [], streamClosed := true }
      = (some .streamClosedErr, { messages := [], streamClosed := true }) ∧
    putObjectClient.CloseSend newPutObjectStream
      = (none, { requests := [], responses := [],
                 clientClosed := true, serverClosed := false }) ∧
    (putObjectServer.Recv
      { requests := [], responses := [],
        clientClosed := true, serverClosed := false }).1
      = .ret none (some .ioEOF) :=
  ⟨((claim8_close_send newGetObjectStream newPutObjectStream).2.1 rfl).1,
   (claim8_close_send { messages := [], streamClosed := true }
      newPutObjectStream).1 rfl,
   ((claim8_close_send newGetObjectStream newPutObjectStream).2.2.2 rfl).1,
   ((claim8_close_send newGetObjectStream newPutObjectStream).2.2.2 rfl).2
      rfl⟩

/-- Claim C9: a successful `SendAndClose` on the upload stream closes
only the response half: afterwards `IsServerClosed` is true while the
request half's `clientClosed` flag and the requests channel are exactly
as before the call — the two halves have independent close state. -/
theorem claim9_send_and_close_frame (p t : putObjectStream)
    (v : PutObjectResponse)
    (h : putObjectServer.SendAndClose (some v) p = (none, t)) :
    t.IsServerClosed = true ∧ t.clientClosed = p.clientClosed ∧
    t.requests = p.requests := by
  by_cases hs : p.serverClosed
  · simp [putObjectServer.SendAndClose, putObjectStream.IsServerClosed,
      hs] at h
  · simp [putObjectServer.SendAndClose, putObjectStream.IsServerClosed,
      hs, putObjectStream.CloseServer_eq] at h
    rw [← h]
    exact ⟨rfl, rfl, rfl⟩

/-- Witness for claim C9 at a fresh upload stream and payload `⟨3⟩`. -/
theorem claim9_witness :
    putObjectServer.SendAndClose (some ⟨3⟩) newPutObjectStream
      = (none, { requests := [], responses := [⟨some ⟨3⟩, none⟩],
                 clientClosed := false, serverClosed := true }) ∧
    ({ requests := [], responses := [⟨some ⟨3⟩, none⟩],
       clientClosed := false, serverClosed := true } :
      putObjectStream).IsServerClosed = true ∧
    ({ requests := [], responses := [⟨some ⟨3⟩, none⟩],
       clientClosed := false, serverClosed := true } :
      putObjectStream).clientClosed = newPutObjectStream.clientClosed :=
  ⟨by decide,
   (claim9_send_and_close_frame newPutObjectStream
      { requests := [], responses := [⟨some ⟨3⟩, none⟩],
        clientClosed := false, serverClosed := true } ⟨3⟩ (by decide)).1,
   (claim9_send_and_close_frame newPutObjectStream
      { requests := [], responses := [⟨some ⟨3⟩, none⟩],
        clientClosed := false, serverClosed := true } ⟨3⟩ (by decide)).2.1⟩

/-- Claim C10: `CloseAndRecv` never fails with AlreadyClosed: it invokes
the idempotent request-half close unconditionally, so its behaviour on a
stream whose request half is already closed is identical to its
behaviour otherwise; the request half is closed afterwards, a pending
response message is returned as-is, and a closed empty response half
yields the end-of-stream sentinel rather than an error about the request
half. -/
theorem claim10_close_and_recv_no_already_closed (p : putObjectStream) :
    putObjectClient.CloseAndRecv p
      = putObjectClient.CloseAndRecv { p with clientClosed := true } ∧
    ((putObjectClient.CloseAndRecv p).2).IsClientClosed = true ∧
    (∀ r rest, p.responses = r :: rest →
      (putObjectClient.CloseAndRecv p).1 = .ret r.msg r.err) ∧
    (p.responses = [] → p.serverClosed = true →
      (putObjectClient.CloseAndRecv p).1 = .ret none (some .ioEOF)) := by
  refine ⟨?_, ?_, fun r rest hr => ?_, fun hre hsv => ?_⟩
  · simp [putObjectClient.CloseAndRecv, putObjectStream.CloseClient_eq]
  · show ((putResponseRecv p.CloseClient).2).clientClosed = true
    rw [putResponseRecv_clientClosed]
    exact putObjectStream.CloseClient_clientClosed p
  · simp [putObjectClient.CloseAndRecv, putResponseRecv,
      putObjectStream.CloseClient_eq, hr]
  · simp [putObjectClient.CloseAndRecv, putResponseRecv,
      putObjectStream.CloseClient_eq, hre, hsv]

/-- Witness for claim C10: a stream whose request half is already closed
(after a prior `CloseSend`) and whose response half was closed without a
message; `CloseAndRecv` returns the sentinel, not AlreadyClosed. -/
theorem claim10_witness :
    (putObjectClient.CloseAndRecv
      { requests := [], responses := [],
        clientClosed := true, serverClosed := true }).1
      = .ret none (some .ioEOF) ∧
    putObjectClient.CloseAndRecv
        { requests := [], responses := [⟨some ⟨9⟩, none⟩],
          clientClosed := false, serverClosed := false }
      = putObjectClient.CloseAndRecv
        { requests := [], responses := [⟨some ⟨9⟩, none⟩],
          clientClosed := true, serverClosed := false } ∧
    (putObjectClient.CloseAndRecv
      { requests := [], responses := [⟨some ⟨9⟩, none⟩],
        clientClosed := true, serverClosed := false }).1
      = .ret (some ⟨9⟩) none :=
  ⟨(claim10_close_and_recv_no_already_closed
      { requests := [], responses := [],
        clientClosed := true, serverClosed := true }).2.2.2 rfl rfl,
   (claim10_close_and_recv_no_already_closed
      { requests := [], responses := [⟨some ⟨9⟩, none⟩],
        clientClosed := false, serverClosed := false }).1,
   (claim10_close_and_recv_no_already_closed
      { requests := [], responses := [⟨some ⟨9⟩, none⟩],
        clientClosed := true, serverClosed := false }).2.2.1
      ⟨some ⟨9⟩, none⟩ [] rfl⟩

/-- Counterexample to claim C1: on a fresh open download stream, the
generic `SendMsg` with a payload-typed nil message succeeds (the type
switch matches a typed nil pointer and the payload branch has no nil
check), while the typed `Send` with a nil payload is rejected with the
InvalidArgument ("cannot be nil") error — so the generic path does not
accept or reject a nil payload exactly as the typed `Send` does. -/
theorem claim1_counterexample :
    (getObjectServer.SendMsg (.resp none) newGetObjectStream).1 = none ∧
    (getObjectServer.Send none newGetObjectStream).1
      = some (.nilArg "resp GetObjectResponse") ∧
    (getObjectServer.SendMsg (.resp none) newGetObjectStream).1
      ≠ (getObjectServer.Send none newGetObjectStream).1 := by
  refine ⟨rfl, rfl, by decide⟩

/-- Claim C1 as amended: the server-side generic `SendMsg` paths match
the typed operations except for nil payloads, and the client-side
`SendMsg`/`RecvMsg` are inert stubs.  In detail: a non-nil payload-typed
message on the download stream is handled exactly as the typed `Send`;
an error-typed message behaves as the spec's `SendError` /
`CompleteWithError` (AlreadyClosed when the half is closed, otherwise
deliver the error then close the half); any other message is rejected as
InvalidArgument; a payload-typed nil message is NOT rejected as
InvalidArgument — it is accepted (enqueuing an empty message) on an open
half and rejected as AlreadyClosed on a closed half; on the upload
stream the payload branch delivers without closing the response half
(unlike the typed `SendAndClose`); and the client-side `SendMsg` /
`RecvMsg` stubs always return nil success and leave the stream
unchanged. -/
theorem claim1_amended_send_msg (s : getObjectStream) (p : putObjectStream)
    (r : GetObjectResponse) (v : PutObjectResponse) (e : GoError)
    (m : getMsg) (m2 : putMsg) :
    getObjectServer.SendMsg (.resp (some r)) s
      = getObjectServer.Send (some r) s ∧
    getObjectServer.SendMsg (.err e) s = getObjectSendErrorSpec e s ∧
    getObjectServer.SendMsg .other s = (some .invalidArgument, s) ∧
    (s.streamClosed = true →
      getObjectServer.SendMsg (.resp none) s = (some .streamClosedErr, s)) ∧
    (s.streamClosed = false →
      getObjectServer.SendMsg (.resp none) s
        = (none, { s with messages := s.messages ++ [⟨none, none⟩] })) ∧
    putObjectServer.SendMsg (.err e) p = putObjectSendErrorSpec e p ∧
    putObjectServer.SendMsg .other p = (some .invalidArgument, p) ∧
    (p.serverClosed = true →
      putObjectServer.SendMsg (.resp (some v)) p
        = (some .streamClosedErr, p)) ∧
    (p.serverClosed = false →
      putObjectServer.SendMsg (.resp (some v)) p
        = (none, { p with responses := p.responses ++ [⟨some v, none⟩] })) ∧
    (p.serverClosed = true →
      putObjectServer.SendMsg (.resp none) p = (some .streamClosedErr, p)) ∧
    (p.serverClosed = false →
      putObjectServer.SendMsg (.resp none) p
        = (none, { p with responses := p.responses ++ [⟨none, none⟩] })) ∧
    getObjectClient.SendMsg m s = (none, s) ∧
    getObjectClient.RecvMsg m s = (none, s) ∧
    putObjectClient.SendMsg m2 p = (none, p) ∧
    putObjectClient.RecvMsg m2 p = (none, p) := by
  refine ⟨rfl, rfl, rfl, fun h => ?_, fun h => ?_, rfl, rfl,
    fun h => ?_, fun h => ?_, fun h => ?_, fun h => ?_,
    rfl, rfl, rfl, rfl⟩ <;>
    simp [getObjectServer.SendMsg, putObjectServer.SendMsg,
      getObjectStream.IsStreamClosed, putObjectStream.IsServerClosed, h]

/-- Witness for the amended claim C1 at fresh streams: the nil-payload
generic send succeeds on an open stream, and the closed-stream cases
reject with AlreadyClosed. -/
theorem claim1_amended_witness :
    getObjectServer.SendMsg (.resp none) newGetObjectStream
      = (none, { messages := [⟨none, none⟩], streamClosed := false }) ∧
    putObjectServer.SendMsg (.resp (some ⟨4⟩)) newPutObjectStream
      = (none, { requests := [], responses := [⟨some ⟨4⟩, none⟩],
                 clientClosed := false, serverClosed := false }) ∧
    getObjectServer.SendMsg (.resp none)
        { messages := [], streamClosed := true }
      = (some .streamClosedErr, { messages := [], streamClosed := true }) :=
  ⟨(claim1_amended_send_msg newGetObjectStream newPutObjectStream
      ⟨0⟩ ⟨4⟩ .ioEOF .other .other).2.2.2.2.1 rfl,
   (claim1_amended_send_msg newGetObjectStream newPutObjectStream
      ⟨0⟩ ⟨4⟩ .ioEOF .other .other).2.2.2.2.2.2.2.2.1 rfl,
   (claim1_amended_send_msg { messages := [], streamClosed := true }
      newPutObjectStream ⟨0⟩ ⟨4⟩ .ioEOF .other .other).2.2.2.1 rfl⟩
